import Mathlib

/-!
# Verification of the wavesim geometric-acoustic core

A shallow embedding of the wavesim pre-processor sources
(`octree.c`, `medium.c`, `attribute.c`, `mesh.c`,
`obj_export_octree.c`, `obj_export_common.c`) in Lean 4.

The C scalar `wsreal_t` is modelled by `ℚ` (exact arithmetic; division is
total in Lean with `x / 0 = 0`).  Out-parameters are modelled by explicit
state passing, fallible operations by `Option` or by an explicit status
code, and the C `goto`-based control flow by pattern matching that follows
the source's branches.  Functions of the repository that exist only as
declarations or call sites (their definitions are not among the sources)
are modelled from the specification and carry a doc comment starting with
`Modelled from the spec:`.
-/

namespace Wavesim

/-- The C scalar `wsreal_t`, modelled exactly. -/
abbrev wsreal := ℚ

/-- Embedding of `vec3_t`: an ordered triple of reals (`vec3.h`, used throughout). -/
structure vec3 where
  x : wsreal
  y : wsreal
  z : wsreal
deriving DecidableEq, Repr

/-- Embedding of `aabb_t`: a pair of `vec3` corners `(min, max)` (`aabb.h`). -/
structure aabb_t where
  min : vec3
  max : vec3
deriving DecidableEq, Repr

/-- The `aabb(ax, ay, az, bx, by, bz)` constructor. -/
def aabb (ax ay az bx by' bz : wsreal) : aabb_t :=
  ⟨⟨ax, ay, az⟩, ⟨bx, by', bz⟩⟩

/-- Embedding of `AABB_DIMS`: dimensions of an AABB, `max − min` componentwise. -/
def aabb_dims (b : aabb_t) : vec3 :=
  ⟨b.max.x - b.min.x, b.max.y - b.min.y, b.max.z - b.min.z⟩

/-- Embedding of `attribute_t`: the acoustic triple (`attribute.h`). -/
structure attribute_t where
  reflection : wsreal
  transmission : wsreal
  absorption : wsreal
deriving DecidableEq, Repr

/-- Embedding of `attribute_set_default_solid` (`attribute.c`): absorption 1, the rest 0.
The source writes into an out-parameter; we return the written value. -/
def attribute_set_default_solid : attribute_t :=
  { reflection := 0, transmission := 0, absorption := 1 }

/-- Embedding of `attribute_set_default_air` (`attribute.c`): transmission 1, the rest 0. -/
def attribute_set_default_air : attribute_t :=
  { reflection := 0, transmission := 1, absorption := 0 }

/-- Embedding of `attribute_set_zero` (`attribute.c`). -/
def attribute_set_zero : attribute_t :=
  { reflection := 0, transmission := 0, absorption := 0 }

/-- Embedding of `attribute_is_same` (`attribute.c`): componentwise exact equality. -/
def attribute_is_same (a1 a2 : attribute_t) : Bool :=
  a1.absorption == a2.absorption &&
  a1.reflection == a2.reflection &&
  a1.transmission == a2.transmission

/-- Embedding of `attribute_normalize_rta` (`attribute.c`): all-zero input becomes the
solid default, otherwise the absolute values are scaled by the reciprocal
of their sum.  In-place mutation is modelled as input → output. -/
def attribute_normalize_rta (a : attribute_t) : attribute_t :=
  if a.reflection = 0 ∧ a.transmission = 0 ∧ a.absorption = 0 then
    attribute_set_default_solid
  else
    let r := |a.reflection|
    let t := |a.transmission|
    let ab := |a.absorption|
    let sum := r + t + ab
    let sum := 1 / sum
    { reflection := r * sum, transmission := t * sum, absorption := ab * sum }

/-- Sum of the three components of an attribute. -/
def attribute_sum (a : attribute_t) : wsreal :=
  a.reflection + a.transmission + a.absorption

/-- Modelled from the spec: `intersect_aabb_aabb_test` (declared in
`intersections.h`, definition not among the sources).  §4.1: overlap,
including shared-face contact, on all 3 axes; boundaries inclusive. -/
def intersect_aabb_aabb_test (a b : aabb_t) : Bool :=
  (a.min.x ≤ b.max.x && b.min.x ≤ a.max.x) &&
  (a.min.y ≤ b.max.y && b.min.y ≤ a.max.y) &&
  (a.min.z ≤ b.max.z && b.min.z ≤ a.max.z)

/-- Modelled from the spec: `aabb_from_3_points` (declared in `aabb.h`,
definition not among the sources).  The componentwise min/max bounding box
of a triangle's three vertices. -/
def aabb_from_3_points (p0 p1 p2 : vec3) : aabb_t :=
  { min := ⟨min p0.x (min p1.x p2.x), min p0.y (min p1.y p2.y),
            min p0.z (min p1.z p2.z)⟩,
    max := ⟨max p0.x (max p1.x p2.x), max p0.y (max p1.y p2.y),
            max p0.z (max p1.z p2.z)⟩ }

/-- Modelled from the spec: `aabb_expand_aabb` (declared in `aabb.h`,
definition not among the sources).  §4.5: `seed.aabb := seed.aabb ∪ slice`,
the componentwise min/max hull of the two boxes. -/
def aabb_expand_aabb (a b : aabb_t) : aabb_t :=
  { min := ⟨min a.min.x b.min.x, min a.min.y b.min.y, min a.min.z b.min.z⟩,
    max := ⟨max a.max.x b.max.x, max a.max.y b.max.y, max a.max.z b.max.z⟩ }

/-- One box contains another (both inclusive); used to state §8.4's
"grid cell is contained in some partition". -/
def aabb_contains (outer inner : aabb_t) : Bool :=
  (outer.min.x ≤ inner.min.x && inner.max.x ≤ outer.max.x) &&
  (outer.min.y ≤ inner.min.y && inner.max.y ≤ outer.max.y) &&
  (outer.min.z ≤ inner.min.z && inner.max.z ≤ outer.max.z)

/-! ## Octree (`octree.c`) -/

/-- The `CX(idx)` macro of `octree.c`: `idx >= 4 ? 1 : 0`. -/
def CX (idx : ℕ) : ℕ := if 4 ≤ idx then 1 else 0

/-- The `CY(idx)` macro of `octree.c`:
`((idx >= 2 && idx < 4) || idx >= 6 ? 1 : 0)`. -/
def CY (idx : ℕ) : ℕ := if (2 ≤ idx ∧ idx < 4) ∨ 6 ≤ idx then 1 else 0

/-- The `CZ(idx)` macro of `octree.c`: `idx % 2 ? 1 : 0`. -/
def CZ (idx : ℕ) : ℕ := if idx % 2 = 1 then 1 else 0

/-- The child bounding box computed by `node_create_children`
(`octree.c:104-112`) for child index `i` of a parent with box `bb_parent`:
on each axis the child spans
`[parent.min + bit·dims, parent.min + (bit+1)·dims]` where
`dims = AABB_DIMS(bb_parent)` (the source does **not** halve `dims`). -/
def node_create_children_box (bb_parent : aabb_t) (i : ℕ) : aabb_t :=
  let bb_dims := aabb_dims bb_parent
  { min := ⟨bb_parent.min.x + (CX i + 0 : ℕ) * bb_dims.x,
            bb_parent.min.y + (CY i + 0 : ℕ) * bb_dims.y,
            bb_parent.min.z + (CZ i + 0 : ℕ) * bb_dims.z⟩,
    max := ⟨bb_parent.min.x + (CX i + 1 : ℕ) * bb_dims.x,
            bb_parent.min.y + (CY i + 1 : ℕ) * bb_dims.y,
            bb_parent.min.z + (CZ i + 1 : ℕ) * bb_dims.z⟩ }

/-- The octant box the spec demands (§4.2.3, §3 `OctreeNode` invariant):
child `i` of a parent box is one of the 8 **equal octants**, i.e. it spans
half the parent's extent per axis, offset from the parent's min corner by
bit 2 on +x, bit 1 on +y, bit 0 on +z. -/
def spec_octant_box (bb_parent : aabb_t) (i : ℕ) : aabb_t :=
  let h := aabb_dims bb_parent
  { min := ⟨bb_parent.min.x + (CX i : ℕ) * (h.x / 2),
            bb_parent.min.y + (CY i : ℕ) * (h.y / 2),
            bb_parent.min.z + (CZ i : ℕ) * (h.z / 2)⟩,
    max := ⟨bb_parent.min.x + ((CX i : ℕ) + 1) * (h.x / 2),
            bb_parent.min.y + ((CY i : ℕ) + 1) * (h.y / 2),
            bb_parent.min.z + ((CZ i : ℕ) + 1) * (h.z / 2)⟩ }

/-- A mesh as the octree and medium see it: a vertex position list and a
flat triangle index list (`mesh_t`'s `vb`/`ib`, with the element width
dispatch resolved; see `mesh.c`). -/
structure mesh_t where
  vertices : List vec3
  indices : List ℕ
  aabb : aabb_t
deriving Repr

/-- Embedding of `mesh_face_count` (`mesh.h`): `ib_count / 3`. -/
def mesh_face_count (m : mesh_t) : ℕ := m.indices.length / 3

/-- The three vertex positions of face `f` of a mesh (`mesh_get_face`). -/
def mesh_face_positions (m : mesh_t) (f : ℕ) : vec3 × vec3 × vec3 :=
  (m.vertices.getD (m.indices.getD (3 * f) 0) ⟨0, 0, 0⟩,
   m.vertices.getD (m.indices.getD (3 * f + 1) 0) ⟨0, 0, 0⟩,
   m.vertices.getD (m.indices.getD (3 * f + 2) 0) ⟨0, 0, 0⟩)

/-- The AABB of face `f` of a mesh, as `octree.c:188` computes it with
`aabb_from_3_points`. -/
def mesh_face_aabb (m : mesh_t) (f : ℕ) : aabb_t :=
  let p := mesh_face_positions m f
  aabb_from_3_points p.1 p.2.1 p.2.2

/-- Embedding of `octree_t` (`octree.h`): the embedding keeps the borrowed mesh; the
node tree is irrelevant to the query entry point below, which ignores it. -/
structure octree_t where
  mesh : mesh_t
deriving Repr

/-- Embedding of `octree_intersect_aabb` (`octree.c:248-255`): the AABB query entry
point of the octree.  The source ignores both arguments and returns
`NULL`; `none` models the `NULL` result (no face list produced). -/
def octree_intersect_aabb (octree : octree_t) (bb : aabb_t) : Option (List ℕ) :=
  none

/-- The face set the spec's query contract promises a superset of
(§8.1): the indices of the faces of mesh `m` whose AABB intersects `b`. -/
def spec_intersecting_faces (m : mesh_t) (b : aabb_t) : List ℕ :=
  (List.range (mesh_face_count m)).filter
    (fun f => intersect_aabb_aabb_test (mesh_face_aabb m f) b)

/-! ## Mesh vertex buffers (`mesh.c`)

For claim C8 the vertex buffer is modelled at the element level for the
same-width case (`vb_type` equal to the build-time `wsreal_t` width): a
`memcpy` of `vb_size * vertex_count * 3` bytes copies the first
`3 * vertex_count` elements verbatim, and the `(wsreal_t)` cast applied by
`mesh_get_vertex_position_from_buffer` is the identity. -/

/-- The vertex buffer state `mesh_copy_from_buffers` (`mesh.c:89-120`)
leaves in the mesh on success: a private copy of the first
`vertex_count * 3` elements of the caller's buffer. -/
def mesh_copy_from_buffers (vertex_buffer : List wsreal)
    (vertex_count : ℕ) : List wsreal :=
  vertex_buffer.take (vertex_count * 3)

/-- Embedding of `mesh_get_vertex_position_from_buffer` (`mesh.c:130-150`) for an
element width equal to the build-time real width: `index *= 3`, then the
elements at offsets 0, 1, 2 are read and cast (identically). -/
def mesh_get_vertex_position_from_buffer (vb : List wsreal) (index : ℕ) :
    vec3 :=
  ⟨vb.getD (index * 3 + 0) 0, vb.getD (index * 3 + 1) 0,
   vb.getD (index * 3 + 2) 0⟩

/-! ## Medium and the systematic decomposer (`medium.c`) -/

/-- Embedding of `medium_partition_t` (`medium.h`). -/
structure medium_partition_t where
  aabb : aabb_t
  sound_speed : wsreal
  adjacent : List ℕ
deriving Repr

/-- Embedding of `medium_t` (`medium.h`); the decomposition-strategy function pointer
is passed explicitly where needed. -/
structure medium_t where
  boundary : aabb_t
  grid_size : vec3
  partitions : List medium_partition_t
deriving Repr

/-- Embedding of `iterate_cells_begin` (`medium.c:20-27`): the first cell has the
extents' min corner as its min and `min + cell_size` as its max. -/
def iterate_cells_begin (extents : aabb_t) (cell_size : vec3) : aabb_t :=
  { min := extents.min,
    max := ⟨extents.min.x + cell_size.x, extents.min.y + cell_size.y,
            extents.min.z + cell_size.z⟩ }

/-- Embedding of `iterate_cells_next` (`medium.c:39-74`): advance one step in raster
order (z innermost, then y, then x); the Bool is the C return value
(`true` = the written cell is still within the extents). -/
def iterate_cells_next (cell extents : aabb_t) : aabb_t × Bool :=
  let z_size := cell.max.z - cell.min.z
  let c1 : aabb_t :=
    { cell with
      min := { cell.min with z := cell.max.z },
      max := { cell.max with z := cell.max.z + z_size } }
  if c1.max.z > extents.max.z then
    let y_size := c1.max.y - c1.min.y
    let c2 : aabb_t :=
      { c1 with
        min := { c1.min with y := c1.max.y, z := extents.min.z },
        max := { c1.max with y := c1.max.y + y_size, z := extents.min.z + z_size } }
    if c2.max.y > extents.max.y then
      let x_size := c2.max.x - c2.min.x
      let c3 : aabb_t :=
        { c2 with
          min := { c2.min with x := c2.max.x, y := extents.min.y },
          max := { c2.max with x := c2.max.x + x_size, y := extents.min.y + y_size } }
      if c3.max.x > extents.max.x then (c3, false) else (c3, true)
    else (c2, true)
  else (c1, true)

/-- The list of cells a `do { … } while (iterate_cells_next(…))` loop
visits, starting from `cell`.  `fuel` bounds the unfolding (the C loop's
termination is numeric); every theorem below is generic in `fuel`, or
evaluates a concrete instance whose loop completes within it. -/
def iterate_cells_list : ℕ → aabb_t → aabb_t → List aabb_t
  | 0, _, _ => []
  | fuel + 1, cell, extents =>
    cell ::
      (let next := iterate_cells_next cell extents
       if next.2 then iterate_cells_list fuel next.1 extents else [])

/-- The cells visited when iterating `extents` with step `cell_size`,
as `iterate_cells_begin` / `iterate_cells_next` visit them. -/
def cells_of (extents : aabb_t) (cell_size : vec3) (fuel : ℕ) : List aabb_t :=
  iterate_cells_list fuel (iterate_cells_begin extents cell_size) extents

/-- Embedding of `direction_e` (`medium.c:235-247`). -/
inductive direction_e where
  | UP | DOWN | LEFT | RIGHT | FRONT | BACK
deriving DecidableEq, Repr

/-- Embedding of `get_adjacent_slice` (`medium.c:248-283`): the box translated one
grid step in the direction and flattened to one grid-layer thick. -/
def get_adjacent_slice (grid_size : vec3) (a : aabb_t) (d : direction_e) :
    aabb_t :=
  match d with
  | .UP =>
    { a with
      min := { a.min with y := a.max.y },
      max := { a.max with y := a.max.y + grid_size.y } }
  | .DOWN =>
    { a with
      min := { a.min with y := a.min.y - grid_size.y },
      max := { a.max with y := a.min.y } }
  | .LEFT =>
    { a with
      min := { a.min with x := a.min.x - grid_size.x },
      max := { a.max with x := a.min.x } }
  | .RIGHT =>
    { a with
      min := { a.min with x := a.max.x },
      max := { a.max with x := a.max.x + grid_size.x } }
  | .FRONT =>
    { a with
      min := { a.min with z := a.min.z - grid_size.z },
      max := { a.max with z := a.min.z } }
  | .BACK =>
    { a with
      min := { a.min with z := a.max.z },
      max := { a.max with z := a.max.z + grid_size.z } }

/-- Embedding of `medium_partition_already_occupied` (`medium.c:284-303`): true when
the box leaves the medium boundary on some axis, or when it intersects
any existing partition (the AABB test is spec-modelled, §4.1). -/
def medium_partition_already_occupied (medium : medium_t) (b : aabb_t) :
    Bool :=
  (decide (b.min.x < medium.boundary.min.x) ||
   decide (b.max.x > medium.boundary.max.x) ||
   decide (b.min.y < medium.boundary.min.y) ||
   decide (b.max.y > medium.boundary.max.y) ||
   decide (b.min.z < medium.boundary.min.z) ||
   decide (b.max.z > medium.boundary.max.z)) ||
  medium.partitions.any (fun p => intersect_aabb_aabb_test p.aabb b)

/-- The cell loop of the expand phase (`medium.c:350-364`): visit the
slice's cells in order, appending every cell whose attribute differs from
the seed's to the candidate list and clearing the
`slice_is_same_as_seed` flag.  `attrF` is the cell-attribute evaluator
(`determine_cell_attribute` applied to the octree). -/
def expand_scan (attrF : aabb_t → attribute_t) (seed_attr : attribute_t) :
    List aabb_t → List aabb_t → Bool → List aabb_t × Bool
  | [], acc, same => (acc, same)
  | c :: rest, acc, same =>
    if attribute_is_same seed_attr (attrF c) then
      expand_scan attrF seed_attr rest acc same
    else
      expand_scan attrF seed_attr rest (acc ++ [c]) false

/-- Result of processing one not-yet-occupied direction in the expand
phase: the (possibly grown) seed box, the candidate seeds appended during
the scan, and whether the direction was marked occupied. -/
structure expand_outcome_t where
  seed : aabb_t
  new_seeds : List aabb_t
  occupied : Bool
deriving Repr

/-- The body of the direction loop of `decompose_systematic_recursive`
(`medium.c:328-374`) for one direction that is not yet flagged occupied:
compute the adjacent slice; if it is already occupied, flag the direction;
otherwise scan its cells, and either record the differing cells and flag
the direction, or merge the slice into the seed. -/
def expand_direction (medium : medium_t) (attrF : aabb_t → attribute_t)
    (seed : aabb_t) (seed_attr : attribute_t) (d : direction_e) (fuel : ℕ) :
    expand_outcome_t :=
  let slice := get_adjacent_slice medium.grid_size seed d
  if medium_partition_already_occupied medium slice then
    ⟨seed, [], true⟩
  else
    let cells := cells_of slice medium.grid_size fuel
    match expand_scan attrF seed_attr cells [] true with
    | (cands, false) => ⟨seed, cands, true⟩
    | (cands, true) => ⟨aabb_expand_aabb seed slice, cands, false⟩

/-- Embedding of `integrity_checks_out` (`medium.c:451-472`): iterate the boundary
lattice; `integrity` is cleared for every cell for which
`medium_partition_already_occupied` reports true. -/
def integrity_checks_out (medium : medium_t) (fuel : ℕ) : Bool :=
  (cells_of medium.boundary medium.grid_size fuel).all
    (fun cell => !(medium_partition_already_occupied medium cell))

/-- The medium state `medium_build_from_mesh` (`medium.c:475-516`) hands
to the decomposition strategy: partitions cleared, `grid_size` copied from
the argument, and `boundary` taken from the mesh AABB when no `mediumdef`
is given, else from `mediumdef`. -/
def medium_build_prepare (medium : medium_t) (mediumdef : Option medium_t)
    (mesh : mesh_t) (grid_size : vec3) : medium_t :=
  { medium with
    partitions := [],
    grid_size := grid_size,
    boundary := match mediumdef with
                | none => mesh.aabb
                | some d => d.boundary }

/-- Embedding of `wsret` (`return_codes.h`, §6): the stable status codes. -/
inductive wsret where
  | WS_OK
  | WS_ERR_OUT_OF_MEMORY
  | WS_ERR_FOPEN_FAILED
  | WS_ERR_READ_FAILED
  | WS_ERR_VERTEX_INDEX_NOT_FOUND
  | WS_ERR_PARSE
deriving DecidableEq, Repr

/-- Embedding of `medium_build_from_mesh` (`medium.c:475-516`), parameterized over the
decomposition strategy (`medium->decompose` is a function pointer in the
source); the strategy receives the prepared medium and the octree built
over the mesh (octree allocation failure is out of scope here). -/
def medium_build_from_mesh
    (decompose : medium_t → octree_t → Option medium_t → medium_t × wsret)
    (medium : medium_t) (mediumdef : Option medium_t) (mesh : mesh_t)
    (grid_size : vec3) : medium_t × wsret :=
  decompose (medium_build_prepare medium mediumdef mesh grid_size)
    ⟨mesh⟩ mediumdef

/-! ## Cell-attribute evaluator (`medium.c:77-165`) -/

/-- Embedding of `vertex_t` (`face.h`): position plus acoustic attribute. -/
structure vertex_t where
  position : vec3
  attr : attribute_t
deriving Repr

/-- Embedding of `face_t` (`face.h`): three vertices. -/
structure face_t where
  v0 : vertex_t
  v1 : vertex_t
  v2 : vertex_t
deriving Repr

/-- Embedding of `vec3_length_squared`. -/
def vec3_length_squared (v : vec3) : wsreal := v.x * v.x + v.y * v.y + v.z * v.z

/-- The cell center as `determine_cell_attribute` computes it
(`medium.c:93-95`): `(min + max) * 0.5`. -/
def cell_center (cell : aabb_t) : vec3 :=
  ⟨(cell.min.x + cell.max.x) * (1/2), (cell.min.y + cell.max.y) * (1/2),
   (cell.min.z + cell.max.z) * (1/2)⟩

/-- One vertex of the Shepard accumulation (`medium.c:124-140`): weight
`1 / ‖v.position − center‖²`, with the coincident-vertex short-circuit
(`goto only_one_vertex_matters`) modelled as `Except.error`. -/
def shepard_vertex (center : vec3) (st : attribute_t × wsreal)
    (v : vertex_t) : Except attribute_t (attribute_t × wsreal) :=
  let distance : vec3 := ⟨v.position.x - center.x, v.position.y - center.y,
                          v.position.z - center.z⟩
  let weight := vec3_length_squared distance
  if weight = 0 then Except.error v.attr
  else
    let weight := 1 / weight
    Except.ok
      ({ reflection := st.1.reflection + v.attr.reflection * weight,
         transmission := st.1.transmission + v.attr.transmission * weight,
         absorption := st.1.absorption + v.attr.absorption * weight },
       st.2 + weight)

/-- One face of the loop of `determine_cell_attribute`
(`medium.c:103-141`): faces failing the precise triangle-AABB test are
skipped, otherwise all three vertices are accumulated. -/
def shepard_face (center : vec3) (test : face_t → aabb_t → Bool)
    (cell : aabb_t) (st : attribute_t × wsreal) (f : face_t) :
    Except attribute_t (attribute_t × wsreal) :=
  if test f cell then
    (shepard_vertex center st f.v0).bind fun st1 =>
      (shepard_vertex center st1 f.v1).bind fun st2 =>
        shepard_vertex center st2 f.v2
  else
    Except.ok st

/-- The face loop of `determine_cell_attribute`. -/
def shepard_faces (center : vec3) (test : face_t → aabb_t → Bool)
    (cell : aabb_t) :
    List face_t → attribute_t × wsreal →
    Except attribute_t (attribute_t × wsreal)
  | [], st => Except.ok st
  | f :: rest, st =>
    match shepard_face center test cell st f with
    | Except.error a => Except.error a
    | Except.ok st' => shepard_faces center test cell rest st'

/-- Embedding of `determine_cell_attribute` (`medium.c:77-165`).  `query` is the
octree query's outcome (`none` models `octree_query_potential_faces`
returning less than 1, upon which the function jumps to
`octree_query_failed` without touching the out-parameter, whose incoming
value is `attr_in`); `test` is the precise triangle-AABB kernel
(`intersect_triangle_aabb_test`, not among the sources, left abstract).
All of the source's paths fall through to the single `return -1` at
`medium.c:164`; the second component is that return value. -/
def determine_cell_attribute (query : Option (List face_t))
    (test : face_t → aabb_t → Bool) (cell : aabb_t)
    (attr_in : attribute_t) : attribute_t × ℤ :=
  match query with
  | none => (attr_in, -1)
  | some faces =>
    let center := cell_center cell
    match shepard_faces center test cell faces (attribute_set_zero, 0) with
    | Except.error a => (a, -1)
    | Except.ok (acc, weights_sum) =>
      if weights_sum = 0 then (attribute_set_default_air, -1)
      else
        let ws := 1 / weights_sum
        let a1 : attribute_t := ⟨acc.reflection * ws, acc.transmission * ws,
                                 acc.absorption * ws⟩
        let s := a1.reflection + a1.transmission + a1.absorption
        let si := 1 / s
        (⟨a1.reflection * si, a1.transmission * si, a1.absorption * si⟩, -1)

/-! ## OBJ export (`obj_export_octree.c`, `obj_export_common.c`) -/

/-- The outcomes of the three fallible operations `obj_export_octree`
invokes: `obj_exporter_open`, and the recursive vertex and index writers
(which can fail with `WS_ERR_OUT_OF_MEMORY` from `btree_insert` inside
`obj_write_vertex`, or `WS_ERR_VERTEX_INDEX_NOT_FOUND` from
`obj_write_aabb_indices`). -/
structure obj_export_env_t where
  open_result : wsret
  write_vertices_result : wsret
  write_indices_result : wsret
deriving Repr

/-- Embedding of `obj_export_octree` (`obj_export_octree.c:46-63`): an open failure is
returned directly; a failed vertex or index write jumps to `bail`, where
the exporter is closed and the function executes `return WS_OK`
unconditionally. -/
def obj_export_octree (env : obj_export_env_t) : wsret :=
  if env.open_result ≠ wsret.WS_OK then env.open_result
  else
    let result :=
      if env.write_vertices_result ≠ wsret.WS_OK then
        env.write_vertices_result
      else env.write_indices_result
    -- `bail:` closes the exporter; the value of `result` is discarded.
    let _ := result
    wsret.WS_OK

/-! ## Concrete fixtures and spec-side predicates used by the theorems -/

/-- A box lies inside a boundary box, inclusively (the complement of the
bounds part of `medium_partition_already_occupied`). -/
def aabb_inside_boundary (boundary b : aabb_t) : Prop :=
  boundary.min.x ≤ b.min.x ∧ b.max.x ≤ boundary.max.x ∧
  boundary.min.y ≤ b.min.y ∧ b.max.y ≤ boundary.max.y ∧
  boundary.min.z ≤ b.min.z ∧ b.max.z ≤ boundary.max.z

instance (boundary b : aabb_t) : Decidable (aabb_inside_boundary boundary b) := by
  unfold aabb_inside_boundary; infer_instance

/-- A mesh holding the single triangle (0,0,0), (1,0,0), (0,1,0). -/
def one_tri_mesh : mesh_t :=
  { vertices := [⟨0, 0, 0⟩, ⟨1, 0, 0⟩, ⟨0, 1, 0⟩]
    indices := [0, 1, 2]
    aabb := aabb 0 0 0 1 1 0 }

/-- A decomposed medium whose single partition covers the whole boundary
exactly: one unit cell, one unit partition. -/
def covered_medium : medium_t :=
  { boundary := aabb 0 0 0 1 1 1
    grid_size := ⟨1, 1, 1⟩
    partitions := [{ aabb := aabb 0 0 0 1 1 1, sound_speed := 1, adjacent := [] }] }

/-- A 2×1×1-cell boundary with no partitions yet, for exercising the
expand phase. -/
def empty_2cell_medium : medium_t :=
  { boundary := aabb 0 0 0 2 1 1
    grid_size := ⟨1, 1, 1⟩
    partitions := [] }

/-- A triangle face whose vertices all carry the solid attribute. -/
def solid_face : face_t :=
  { v0 := ⟨⟨0, 0, 0⟩, attribute_set_default_solid⟩
    v1 := ⟨⟨1, 0, 0⟩, attribute_set_default_solid⟩
    v2 := ⟨⟨0, 1, 0⟩, attribute_set_default_solid⟩ }

/-! ## Helper lemmas -/

/-- The equality test of `attribute.c` decides componentwise equality. -/
theorem attribute_is_same_eq_true_iff (a b : attribute_t) :
    attribute_is_same a b = true ↔ a = b := by
  cases a; cases b
  simp only [attribute_is_same, Bool.and_eq_true, beq_iff_eq,
    attribute_t.mk.injEq]
  tauto

/-- The bounds-plus-partitions test of `medium.c:284-303` fails exactly
when the box lies inside the boundary and intersects no partition. -/
theorem medium_partition_already_occupied_eq_false_iff (m : medium_t)
    (b : aabb_t) :
    medium_partition_already_occupied m b = false ↔
      (aabb_inside_boundary m.boundary b ∧
       ∀ p ∈ m.partitions, intersect_aabb_aabb_test p.aabb b = false) := by
  simp only [medium_partition_already_occupied, aabb_inside_boundary,
    Bool.or_eq_false_iff, decide_eq_false_iff_not, not_lt,
    List.any_eq_false, Bool.not_eq_true]
  tauto

/-- The candidate-recording cell scan of the expand phase computes the
filter of differing cells and the conjunction of the sameness flag. -/
theorem expand_scan_eq (attrF : aabb_t → attribute_t)
    (seed_attr : attribute_t) (cells : List aabb_t) (acc : List aabb_t)
    (same : Bool) :
    expand_scan attrF seed_attr cells acc same =
      (acc ++ cells.filter (fun c => !(attribute_is_same seed_attr (attrF c))),
       same && cells.all (fun c => attribute_is_same seed_attr (attrF c))) := by
  induction cells generalizing acc same with
  | nil => simp [expand_scan]
  | cons c rest ih =>
    by_cases h : attribute_is_same seed_attr (attrF c) = true
    · simp [expand_scan, h, ih]
    · simp only [Bool.not_eq_true] at h
      simp [expand_scan, h, ih]

/-- When every face fails the precise test, the Shepard loop leaves the
accumulator untouched. -/
theorem shepard_faces_all_skipped (center : vec3)
    (test : face_t → aabb_t → Bool) (cell : aabb_t) (faces : List face_t)
    (st : attribute_t × wsreal)
    (h : ∀ f ∈ faces, test f cell = false) :
    shepard_faces center test cell faces st = Except.ok st := by
  induction faces with
  | nil => rfl
  | cons f rest ih =>
    have hf : test f cell = false := h f (List.mem_cons_self f rest)
    simp only [shepard_faces, shepard_face, hf, Bool.false_eq_true,
      if_false]
    exact ih fun g hg => h g (List.mem_cons_of_mem f hg)

/-- When the adjacent slice is already occupied, the direction body only
flags the direction. -/
theorem expand_direction_occupied_case (medium : medium_t)
    (attrF : aabb_t → attribute_t) (seed : aabb_t)
    (seed_attr : attribute_t) (d : direction_e) (fuel : ℕ)
    (hocc : medium_partition_already_occupied medium
      (get_adjacent_slice medium.grid_size seed d) = true) :
    expand_direction medium attrF seed seed_attr d fuel = ⟨seed, [], true⟩ := by
  unfold expand_direction
  simp [hocc]

/-- When the adjacent slice is free, the direction body merges or records
candidates according to the scan over the slice's cells. -/
theorem expand_direction_free_case (medium : medium_t)
    (attrF : aabb_t → attribute_t) (seed : aabb_t)
    (seed_attr : attribute_t) (d : direction_e) (fuel : ℕ)
    (hocc : medium_partition_already_occupied medium
      (get_adjacent_slice medium.grid_size seed d) = false) :
    expand_direction medium attrF seed seed_attr d fuel =
      (if (cells_of (get_adjacent_slice medium.grid_size seed d)
            medium.grid_size fuel).all
          (fun c => attribute_is_same seed_attr (attrF c)) then
        ⟨aabb_expand_aabb seed (get_adjacent_slice medium.grid_size seed d),
         (cells_of (get_adjacent_slice medium.grid_size seed d)
            medium.grid_size fuel).filter
           (fun c => !(attribute_is_same seed_attr (attrF c))), false⟩
      else
        ⟨seed,
         (cells_of (get_adjacent_slice medium.grid_size seed d)
            medium.grid_size fuel).filter
           (fun c => !(attribute_is_same seed_attr (attrF c))), true⟩) := by
  simp only [expand_direction, hocc, Bool.false_eq_true, if_false]
  rw [expand_scan_eq]
  simp only [List.nil_append, Bool.true_and]
  by_cases hall : (cells_of (get_adjacent_slice medium.grid_size seed d)
      medium.grid_size fuel).all
      (fun c => attribute_is_same seed_attr (attrF c)) = true
  · rw [hall, if_pos rfl]
  · simp only [Bool.not_eq_true] at hall
    rw [hall]
    simp

/-! ## Claim theorems -/

/-- C1.  The claim states every non-root node's AABB is one of the 8
equal octants of its parent's AABB.  The child boxes `node_create_children`
(`octree.c:74-115`) actually computes use the parent's **full** dimensions
instead of half of them: for the parent (0,0,0)–(2,2,2), child 0's box is
the whole parent box, child 7's box is (2,2,2)–(4,4,4) — entirely outside
the parent — and no child index yields its octant (which for index 7 would
be (1,1,1)–(2,2,2)). -/
theorem C1_children_are_not_octants :
    node_create_children_box (aabb 0 0 0 2 2 2) 0 = aabb 0 0 0 2 2 2 ∧
    node_create_children_box (aabb 0 0 0 2 2 2) 7 = aabb 2 2 2 4 4 4 ∧
    spec_octant_box (aabb 0 0 0 2 2 2) 7 = aabb 1 1 1 2 2 2 ∧
    (∀ i ∈ List.range 8,
      node_create_children_box (aabb 0 0 0 2 2 2) i ≠
        spec_octant_box (aabb 0 0 0 2 2 2) i) ∧
    aabb_contains (aabb 0 0 0 2 2 2)
      (node_create_children_box (aabb 0 0 0 2 2 2) 7) = false := by
  refine ⟨?_, ?_, ?_, ?_, ?_⟩
  · simp [node_create_children_box, aabb, aabb_dims, CX, CY, CZ]
  · norm_num [node_create_children_box, aabb, aabb_dims, CX, CY, CZ]
  · norm_num [spec_octant_box, aabb, aabb_dims, CX, CY, CZ]
  · intro i hi
    rw [List.mem_range] at hi
    interval_cases i <;>
      norm_num [node_create_children_box, spec_octant_box, aabb, aabb_dims,
        CX, CY, CZ, aabb_t.mk.injEq, vec3.mk.injEq]
  · norm_num [aabb_contains, node_create_children_box, aabb, aabb_dims,
      CX, CY, CZ]

/-- C2.  The claim states the octree's box query returns a superset of
the faces whose AABB intersects the box.  The query entry point in the
sources, `octree_intersect_aabb` (`octree.c:248-255`), ignores its
arguments and returns `NULL`: for the one-triangle mesh and the unit box,
the spec-side face set is `[0]`, yet the query produces no face list at
all. -/
theorem C2_query_returns_no_faces :
    spec_intersecting_faces one_tri_mesh (aabb 0 0 0 1 1 1) = [0] ∧
    octree_intersect_aabb ⟨one_tri_mesh⟩ (aabb 0 0 0 1 1 1) = none := by
  constructor
  · norm_num [spec_intersecting_faces, one_tri_mesh, mesh_face_count,
      mesh_face_aabb, mesh_face_positions, aabb_from_3_points,
      intersect_aabb_aabb_test, aabb, List.filter]
  · rfl

/-- C3.  One direction body of the expand phase
(`decompose_systematic_recursive`, `medium.c:328-374`): the adjacent
slice is merged into the seed (the seed box becomes its hull with the
slice, the direction not marked occupied) **iff** the slice lies inside
the medium boundary, intersects no existing partition, and every grid
cell the slice iterator visits evaluates (under the cell-attribute
evaluator `attrF`) to an attribute exactly equal to the seed's; moreover,
when the slice is free, the differing cells — and exactly those, in visit
order — are recorded as candidate new seeds, and the direction is marked
occupied precisely when the merge fails. -/
theorem C3_expand_direction_merges_iff (medium : medium_t)
    (attrF : aabb_t → attribute_t) (seed : aabb_t)
    (seed_attr : attribute_t) (d : direction_e) (fuel : ℕ) :
    (((expand_direction medium attrF seed seed_attr d fuel).occupied = false ∧
      (expand_direction medium attrF seed seed_attr d fuel).seed =
        aabb_expand_aabb seed (get_adjacent_slice medium.grid_size seed d)) ↔
      (aabb_inside_boundary medium.boundary
        (get_adjacent_slice medium.grid_size seed d) ∧
       (∀ p ∈ medium.partitions,
         intersect_aabb_aabb_test p.aabb
           (get_adjacent_slice medium.grid_size seed d) = false) ∧
       (∀ c ∈ cells_of (get_adjacent_slice medium.grid_size seed d)
           medium.grid_size fuel, attrF c = seed_attr))) ∧
    (medium_partition_already_occupied medium
        (get_adjacent_slice medium.grid_size seed d) = true →
      expand_direction medium attrF seed seed_attr d fuel = ⟨seed, [], true⟩) ∧
    (medium_partition_already_occupied medium
        (get_adjacent_slice medium.grid_size seed d) = false →
      (expand_direction medium attrF seed seed_attr d fuel).new_seeds =
        (cells_of (get_adjacent_slice medium.grid_size seed d)
            medium.grid_size fuel).filter
          (fun c => !(attribute_is_same seed_attr (attrF c))) ∧
      ((expand_direction medium attrF seed seed_attr d fuel).occupied = true ↔
        ¬ ∀ c ∈ cells_of (get_adjacent_slice medium.grid_size seed d)
            medium.grid_size fuel, attrF c = seed_attr)) := by
  have hall_iff :
      ((cells_of (get_adjacent_slice medium.grid_size seed d)
          medium.grid_size fuel).all
        (fun c => attribute_is_same seed_attr (attrF c)) = true) ↔
      (∀ c ∈ cells_of (get_adjacent_slice medium.grid_size seed d)
          medium.grid_size fuel, attrF c = seed_attr) := by
    rw [List.all_eq_true]
    constructor
    · intro h c hc
      exact ((attribute_is_same_eq_true_iff seed_attr (attrF c)).mp
        (h c hc)).symm
    · intro h c hc
      exact (attribute_is_same_eq_true_iff seed_attr (attrF c)).mpr
        (h c hc).symm
  by_cases hocc : medium_partition_already_occupied medium
      (get_adjacent_slice medium.grid_size seed d) = true
  · have hout := expand_direction_occupied_case medium attrF seed seed_attr
      d fuel hocc
    refine ⟨?_, fun _ => hout, fun hf => absurd hocc (by simp [hf])⟩
    constructor
    · intro hmerge
      rw [hout] at hmerge
      cases hmerge.1
    · rintro ⟨h1, h2, _⟩
      have := (medium_partition_already_occupied_eq_false_iff medium
        (get_adjacent_slice medium.grid_size seed d)).mpr ⟨h1, h2⟩
      rw [this] at hocc
      cases hocc
  · simp only [Bool.not_eq_true] at hocc
    have hout := expand_direction_free_case medium attrF seed seed_attr
      d fuel hocc
    have hfree := (medium_partition_already_occupied_eq_false_iff medium
      (get_adjacent_slice medium.grid_size seed d)).mp hocc
    by_cases hall : (cells_of (get_adjacent_slice medium.grid_size seed d)
        medium.grid_size fuel).all
        (fun c => attribute_is_same seed_attr (attrF c)) = true
    · rw [if_pos hall] at hout
      refine ⟨?_, fun ht => absurd hocc (by simp [ht]), fun _ => ?_⟩
      · constructor
        · intro _
          exact ⟨hfree.1, hfree.2, hall_iff.mp hall⟩
        · intro _
          simp [hout]
      · refine ⟨by simp [hout], ?_⟩
        rw [hout]
        dsimp only
        constructor
        · intro hco
          exact Bool.noConfusion hco
        · intro hne
          exact absurd (hall_iff.mp hall) hne
    · simp only [Bool.not_eq_true] at hall
      rw [hall] at hout
      simp only [Bool.false_eq_true, if_false] at hout
      refine ⟨?_, fun ht => absurd hocc (by simp [ht]), fun _ => ?_⟩
      · constructor
        · intro hmerge
          rw [hout] at hmerge
          exact Bool.noConfusion hmerge.1
        · rintro ⟨_, _, h3⟩
          have hc := hall_iff.mpr h3
          rw [hall] at hc
          exact Bool.noConfusion hc
      · refine ⟨by simp [hout], ?_⟩
        rw [hout]
        dsimp only
        constructor
        · intro _ hforall
          have hc := hall_iff.mpr hforall
          rw [hall] at hc
          exact Bool.noConfusion hc
        · intro _; rfl

/-- Witness for C3: in an empty two-cell medium with a constant air
attribute field, expanding the left unit-cell seed to the RIGHT merges
the adjacent slice: the grown seed is the whole 2×1×1 boundary, no
candidates are recorded, and the direction is not marked occupied. -/
theorem C3_expand_direction_merges_iff_witness :
    (expand_direction empty_2cell_medium (fun _ => attribute_set_default_air)
        (aabb 0 0 0 1 1 1) attribute_set_default_air .RIGHT 4).occupied =
      false ∧
    (expand_direction empty_2cell_medium (fun _ => attribute_set_default_air)
        (aabb 0 0 0 1 1 1) attribute_set_default_air .RIGHT 4).seed =
      aabb 0 0 0 2 1 1 := by
  have h := (C3_expand_direction_merges_iff empty_2cell_medium
    (fun _ => attribute_set_default_air) (aabb 0 0 0 1 1 1)
    attribute_set_default_air .RIGHT 4).1.mpr
    ⟨by norm_num [aabb_inside_boundary, get_adjacent_slice,
        empty_2cell_medium, aabb],
     by simp [empty_2cell_medium],
     fun c _ => rfl⟩
  refine ⟨h.1, h.2.trans ?_⟩
  norm_num [aabb_expand_aabb, get_adjacent_slice, empty_2cell_medium, aabb]

/-- C4.  The claim states the debug integrity check succeeds iff every
grid cell of the boundary lattice is contained in some partition.
`integrity_checks_out` (`medium.c:451-472`) tests the inverse: on a medium
whose single partition covers the whole (one-cell) boundary exactly, every
lattice cell is contained in a partition, the lattice is non-empty, and
yet the check returns false (logging "missing partition" at the covered
cell). -/
theorem C4_integrity_check_inverted :
    integrity_checks_out covered_medium 10 = false ∧
    (cells_of covered_medium.boundary covered_medium.grid_size 10).all
      (fun cell => covered_medium.partitions.any
        (fun p => aabb_contains p.aabb cell)) = true ∧
    cells_of covered_medium.boundary covered_medium.grid_size 10 ≠ [] := by
  refine ⟨?_, ?_, ?_⟩
  · norm_num [integrity_checks_out, cells_of, iterate_cells_begin,
      iterate_cells_list, iterate_cells_next,
      medium_partition_already_occupied, intersect_aabb_aabb_test,
      covered_medium, aabb]
  · norm_num [cells_of, iterate_cells_begin, iterate_cells_list,
      iterate_cells_next, aabb_contains, covered_medium, aabb]
  · norm_num [cells_of, iterate_cells_begin, iterate_cells_list,
      iterate_cells_next, covered_medium, aabb]

/-- C7.  The claim states `obj_export_octree` returns a non-OK status
whenever opening or writing fails.  Open failures are propagated
(`obj_export_octree.c:52-53`), but a failed vertex or index write merely
jumps to `bail`, after which the function returns `WS_OK` unconditionally
(`obj_export_octree.c:60-62`): with a successful open and an
out-of-memory vertex write (or a missing-index write), it still reports
success. -/
theorem C7_export_swallows_write_failures :
    obj_export_octree ⟨wsret.WS_OK, wsret.WS_ERR_OUT_OF_MEMORY, wsret.WS_OK⟩ =
      wsret.WS_OK ∧
    obj_export_octree
        ⟨wsret.WS_OK, wsret.WS_OK, wsret.WS_ERR_VERTEX_INDEX_NOT_FOUND⟩ =
      wsret.WS_OK ∧
    obj_export_octree ⟨wsret.WS_ERR_FOPEN_FAILED, wsret.WS_OK, wsret.WS_OK⟩ =
      wsret.WS_ERR_FOPEN_FAILED := by
  exact ⟨rfl, rfl, rfl⟩

/-- C5.  In `determine_cell_attribute` (`medium.c:77-165`), when no
candidate face of a successful octree query passes the precise
triangle-AABB test (so the accumulated weight sum stays 0), the returned
attribute is air = (0, 1, 0), regardless of the precise test used and of
the out-parameter's previous value. -/
theorem C5_no_surviving_face_gives_air (faces : List face_t)
    (test : face_t → aabb_t → Bool) (cell : aabb_t)
    (attr_in : attribute_t) (h : ∀ f ∈ faces, test f cell = false) :
    determine_cell_attribute (some faces) test cell attr_in =
      (attribute_set_default_air, -1) := by
  unfold determine_cell_attribute
  dsimp only
  rw [shepard_faces_all_skipped (cell_center cell) test cell faces
    (attribute_set_zero, 0) h]
  simp

/-- Witness for C5: one solid triangle in the query result, a test that
rejects everything: the evaluator returns air. -/
theorem C5_no_surviving_face_gives_air_witness :
    determine_cell_attribute (some [solid_face]) (fun _ _ => false)
      (aabb 0 0 0 1 1 1) attribute_set_zero =
      (attribute_set_default_air, -1) :=
  C5_no_surviving_face_gives_air [solid_face] (fun _ _ => false)
    (aabb 0 0 0 1 1 1) attribute_set_zero (fun _ _ => rfl)

/-- C6.  `attribute_normalize_rta` (`attribute.c:74-93`) maps the
all-zero triple to the solid default (0, 0, 1); any other triple is scaled
so that its three components sum to exactly 1 (exact arithmetic; a
fortiori within 4·EPS). -/
theorem C6_normalize_sums_to_one (a : attribute_t) :
    (a.reflection = 0 ∧ a.transmission = 0 ∧ a.absorption = 0 →
      attribute_normalize_rta a = attribute_set_default_solid) ∧
    (¬(a.reflection = 0 ∧ a.transmission = 0 ∧ a.absorption = 0) →
      attribute_sum (attribute_normalize_rta a) = 1) := by
  constructor
  · intro h
    simp [attribute_normalize_rta, h]
  · intro h
    have hsum : |a.reflection| + |a.transmission| + |a.absorption| ≠ 0 := by
      intro h0
      have h1 : |a.reflection| = 0 ∧ |a.transmission| = 0 ∧ |a.absorption| = 0 := by
        constructor
        · nlinarith [abs_nonneg a.reflection, abs_nonneg a.transmission,
            abs_nonneg a.absorption]
        constructor
        · nlinarith [abs_nonneg a.reflection, abs_nonneg a.transmission,
            abs_nonneg a.absorption]
        · nlinarith [abs_nonneg a.reflection, abs_nonneg a.transmission,
            abs_nonneg a.absorption]
      exact h ⟨abs_eq_zero.mp h1.1, abs_eq_zero.mp h1.2.1,
        abs_eq_zero.mp h1.2.2⟩
    simp only [attribute_normalize_rta, if_neg h, attribute_sum]
    field_simp

/-- Witness for C6: the all-zero triple becomes solid, and (2, 3, 5)
normalizes to a triple summing to 1. -/
theorem C6_normalize_sums_to_one_witness :
    attribute_normalize_rta ⟨0, 0, 0⟩ = attribute_set_default_solid ∧
    attribute_sum (attribute_normalize_rta ⟨2, 3, 5⟩) = 1 :=
  ⟨(C6_normalize_sums_to_one ⟨0, 0, 0⟩).1 ⟨rfl, rfl, rfl⟩,
   (C6_normalize_sums_to_one ⟨2, 3, 5⟩).2 (by norm_num)⟩

/-- C8.  For a vertex buffer whose element width equals the build-time
real width, `mesh_copy_from_buffers` (`mesh.c:89-120`) followed by
`mesh_get_vertex_position_from_buffer` (`mesh.c:130-150`) at any
in-range vertex index reproduces the input positions exactly: the
`memcpy` copies the first `vertex_count * 3` elements and the same-width
cast is the identity. -/
theorem C8_copy_then_get_roundtrip (vertex_buffer : List wsreal)
    (vertex_count : ℕ) (i : ℕ) (h : i < vertex_count) :
    mesh_get_vertex_position_from_buffer
        (mesh_copy_from_buffers vertex_buffer vertex_count) i =
      ⟨vertex_buffer.getD (i * 3 + 0) 0, vertex_buffer.getD (i * 3 + 1) 0,
       vertex_buffer.getD (i * 3 + 2) 0⟩ := by
  have hk : ∀ k, k < 3 →
      (vertex_buffer.take (vertex_count * 3)).getD (i * 3 + k) 0 =
        vertex_buffer.getD (i * 3 + k) 0 := by
    intro k hk3
    have hlt : i * 3 + k < vertex_count * 3 := by
      have : i + 1 ≤ vertex_count := h
      nlinarith
    simp [List.getD_eq_getElem?_getD, List.getElem?_take, hlt]
  simp only [mesh_get_vertex_position_from_buffer, mesh_copy_from_buffers]
  rw [show i * 3 = i * 3 + 0 from rfl, hk 0 (by norm_num),
    hk 1 (by norm_num), hk 2 (by norm_num)]

/-- Witness for C8: copying the 2-vertex buffer (1,2,3),(4,5,6) and
reading back vertex 1 yields (4,5,6). -/
theorem C8_copy_then_get_roundtrip_witness :
    mesh_get_vertex_position_from_buffer
        (mesh_copy_from_buffers [1, 2, 3, 4, 5, 6] 2) 1 = ⟨4, 5, 6⟩ := by
  rw [C8_copy_then_get_roundtrip [1, 2, 3, 4, 5, 6] 2 1 (by norm_num)]
  rfl

/-- C9.  `medium_build_from_mesh` (`medium.c:475-516`) hands the
decomposition strategy a medium whose grid size is always copied from the
`grid_size` argument and whose boundary is the mesh's AABB when
`mediumdef` is `NULL` and `mediumdef`'s boundary otherwise, with the
partitions cleared first. -/
theorem C9_build_sets_boundary_and_grid
    (decompose : medium_t → octree_t → Option medium_t → medium_t × wsret)
    (medium : medium_t) (mediumdef : Option medium_t) (mesh : mesh_t)
    (grid_size : vec3) :
    medium_build_from_mesh decompose medium mediumdef mesh grid_size =
      decompose (medium_build_prepare medium mediumdef mesh grid_size)
        ⟨mesh⟩ mediumdef ∧
    (medium_build_prepare medium mediumdef mesh grid_size).grid_size =
      grid_size ∧
    (medium_build_prepare medium mediumdef mesh grid_size).partitions = [] ∧
    (mediumdef = none →
      (medium_build_prepare medium mediumdef mesh grid_size).boundary =
        mesh.aabb) ∧
    (∀ d, mediumdef = some d →
      (medium_build_prepare medium mediumdef mesh grid_size).boundary =
        d.boundary) := by
  refine ⟨rfl, rfl, rfl, ?_, ?_⟩
  · intro h; subst h; rfl
  · intro d h; subst h; rfl

/-- Witness for C9: with a `mediumdef` whose boundary is the unit box,
the prepared medium's boundary is that box and its grid size is the
argument. -/
theorem C9_build_sets_boundary_and_grid_witness :
    (medium_build_prepare empty_2cell_medium (some covered_medium)
        one_tri_mesh ⟨1, 1, 1⟩).boundary = covered_medium.boundary ∧
    (medium_build_prepare empty_2cell_medium none one_tri_mesh
        ⟨1, 1, 1⟩).boundary = one_tri_mesh.aabb ∧
    (medium_build_prepare empty_2cell_medium none one_tri_mesh
        ⟨1, 1, 1⟩).grid_size = ⟨1, 1, 1⟩ :=
  ⟨(C9_build_sets_boundary_and_grid (fun m _ _ => (m, wsret.WS_OK))
      empty_2cell_medium (some covered_medium) one_tri_mesh ⟨1, 1, 1⟩).2.2.2.2
      covered_medium rfl,
   (C9_build_sets_boundary_and_grid (fun m _ _ => (m, wsret.WS_OK))
      empty_2cell_medium none one_tri_mesh ⟨1, 1, 1⟩).2.2.2.1 rfl,
   (C9_build_sets_boundary_and_grid (fun m _ _ => (m, wsret.WS_OK))
      empty_2cell_medium none one_tri_mesh ⟨1, 1, 1⟩).2.1⟩

/-- C10.  `determine_cell_attribute` (`medium.c:77-165`) has a single
`return -1` that every path — failed query, coincident-vertex
short-circuit, and successful interpolation alike — falls through to, so
the return value never distinguishes success from failure; and on a
failed octree query the out-parameter keeps its incoming value. -/
theorem C10_return_code_always_minus_one (query : Option (List face_t))
    (test : face_t → aabb_t → Bool) (cell : aabb_t)
    (attr_in : attribute_t) :
    (determine_cell_attribute query test cell attr_in).2 = -1 ∧
    (query = none →
      (determine_cell_attribute query test cell attr_in).1 = attr_in) := by
  constructor
  · unfold determine_cell_attribute
    match query with
    | none => rfl
    | some faces =>
      dsimp only
      match shepard_faces (cell_center cell) test cell faces
          (attribute_set_zero, 0) with
      | Except.error a => rfl
      | Except.ok (acc, weights_sum) =>
        dsimp only
        by_cases h : weights_sum = 0 <;> simp [h]
  · intro h; subst h; rfl

/-- Witness for C10: a failed query leaves the out-attribute (5, 6, 7)
untouched and still returns −1. -/
theorem C10_return_code_always_minus_one_witness :
    (determine_cell_attribute none (fun _ _ => true) (aabb 0 0 0 1 1 1)
        ⟨5, 6, 7⟩).2 = -1 ∧
    (determine_cell_attribute none (fun _ _ => true) (aabb 0 0 0 1 1 1)
        ⟨5, 6, 7⟩).1 = ⟨5, 6, 7⟩ :=
  ⟨(C10_return_code_always_minus_one none (fun _ _ => true)
      (aabb 0 0 0 1 1 1) ⟨5, 6, 7⟩).1,
   (C10_return_code_always_minus_one none (fun _ _ => true)
      (aabb 0 0 0 1 1 1) ⟨5, 6, 7⟩).2 rfl⟩

end Wavesim
